import Mathlib

/-!
# Verification of `koitococo/watchdog` (`src/main.rs`)

A shallow embedding of the watchdog program's core logic: the watcher
callback's event filter, the debounce window kept by the control loop, the
reconcile step performed on an effective trigger (kill / poll / spawn), and
the startup phase (resolving the watch-file list and the empty-list check).

Conventions of the embedding:
* Child process handles are abstracted as `Nat` identifiers; exit statuses as
  `Nat`.
* OS process-control calls performed during one loop iteration (`kill`,
  `wait`, `try_wait`, `spawn`) are oracle inputs collected in `OsCycle`,
  each recording the success/failure outcome the OS would return.
* `Instant` timestamps are `Nat` milliseconds; `now - last` uses truncated
  subtraction, which agrees with `Instant` arithmetic since the loop only
  ever compares a later `now` against an earlier `last`.
* A Rust panic (from `.unwrap()` / `.expect(...)`) is modelled as a distinct
  abnormal-termination outcome; a Rust panic terminates the process with
  exit code 101, not 1.
* Log lines are modelled by their static prefix text (the formatted error
  payload `{e}` is dropped); informational lines are gated by `quiet`,
  error lines are not, mirroring `println!` vs `eprintln!`.
-/

namespace Watchdog

/-- Event kinds delivered by the `notify` watcher, as matched by the watcher
callback (`main.rs` 63-73). -/
inductive EventKind
  | modify
  | any
  | access
  | create
  | remove
  | other
deriving DecidableEq, Repr

/-- Watcher callback body for a successfully delivered event
(`main.rs` 63-73): a `Modify(_)` event sends the value `1` on the trigger
channel; every other kind matches an arm that does nothing. -/
def watcherSignal : EventKind → Option Nat
  | EventKind.modify => some 1
  | EventKind.any => none
  | EventKind.access => none
  | EventKind.create => none
  | EventKind.remove => none
  | EventKind.other => none

/-- The sequence of values enqueued on the trigger channel by a sequence of
delivered events: each event independently runs the callback. -/
def enqueuedSignals (evs : List EventKind) : List Nat :=
  evs.filterMap watcherSignal

/-- The policy-relevant command-line arguments (`struct Args`,
`main.rs` 12-36). The watched paths and the command tokens do not
influence the control flow modelled here and are omitted. -/
structure Args where
  interval : Nat
  reexec : Bool
  kill : Bool
  quiet : Bool
deriving DecidableEq, Repr

instance exceptDecEq {ε α : Type} [DecidableEq ε] [DecidableEq α] :
    DecidableEq (Except ε α) := fun x y =>
  match x, y with
  | Except.ok a, Except.ok b =>
      if h : a = b then Decidable.isTrue (by rw [h])
      else Decidable.isFalse (by intro hc; injection hc; contradiction)
  | Except.ok _, Except.error _ =>
      Decidable.isFalse (by intro hc; exact Except.noConfusion hc)
  | Except.error _, Except.ok _ =>
      Decidable.isFalse (by intro hc; exact Except.noConfusion hc)
  | Except.error a, Except.error b =>
      if h : a = b then Decidable.isTrue (by rw [h])
      else Decidable.isFalse (by intro hc; injection hc; contradiction)

/-- Outcomes of the OS process-control calls available to one loop
iteration (an oracle for the opaque `std::process` primitives):
* `killOk` — result of `prev_child.kill()` (`main.rs` 116-118);
* `waitOk` — result of `prev_child.wait()` (`main.rs` 120-122), consulted
  only when the kill succeeded (`&&` short-circuits);
* `tryWaitRes` — result of `prev_child.try_wait()` (`main.rs` 132):
  `Except.ok none` means the child is still running, `Except.ok (some st)`
  means it exited with status `st`, `Except.error ()` means the poll
  itself failed;
* `spawnRes` — result of `command.spawn()` (`main.rs` 139-147): `some c`
  is a fresh child handle, `none` is a spawn failure. -/
structure OsCycle where
  killOk : Bool
  waitOk : Bool
  tryWaitRes : Except Unit (Option Nat)
  spawnRes : Option Nat
deriving DecidableEq, Repr

/-- Mutable state owned by the control loop: the debounce timestamp `last`
(`main.rs` 87) and the child slot `child` (`main.rs` 93). -/
structure LoopState where
  last : Nat
  child : Option Nat
deriving DecidableEq, Repr

/-- Result of one loop iteration: either the Rust program panics (the
`try_wait().unwrap()` on a failed poll), or the loop reaches the next
`rx.recv()` with a new state.  `effective` records whether the debounce
filter passed, `spawnAttempted` whether `command.spawn()` was called this
iteration, and `log` the lines printed (static prefixes only). -/
inductive CycleResult
  | panic (log : List String)
  | next (s : LoopState) (effective : Bool) (spawnAttempted : Bool) (log : List String)
deriving DecidableEq, Repr

/-- The kill-and-wait sequence of the kill branch (`main.rs` 116-130):
`prev_child.kill()...is_ok() && prev_child.wait()...is_ok()`, with
`inspect_err` printing on each failing call and the success/failure
messages afterwards.  Returns the lines printed.  Note the Rust code never
puts the child back: `child` was taken at `main.rs` 114 and stays `None`
on every path of this branch. -/
def killBranchLog (args : Args) (os : OsCycle) : List String :=
  if os.killOk then
    if os.waitOk then
      if args.quiet then [] else ["Child process terminated"]
    else
      ["Failed to finalize child", "Failed to kill child process, skipping re-execution"]
  else
    ["Failed to kill child", "Failed to kill child process, skipping re-execution"]

/-- The spawn block (`main.rs` 138-148): run iff the slot is empty after
the branch above; success populates the slot, failure leaves it empty. -/
def spawnBlock (args : Args) (os : OsCycle) (now : Nat) (child1 : Option Nat)
    (log : List String) : CycleResult :=
  if child1.isNone then
    match os.spawnRes with
    | some c =>
        CycleResult.next ⟨now, some c⟩ true true
          (log ++ if args.quiet then [] else ["Child process started"])
    | none =>
        CycleResult.next ⟨now, none⟩ true true (log ++ ["Failed to start command"])
  else
    CycleResult.next ⟨now, child1⟩ true false log

/-- The "Change detected" line printed when the debounce filter passes
(`main.rs` 111-113). -/
def changeDetectedLog (args : Args) : List String :=
  if args.quiet then [] else ["Change detected"]

/-- The body run when the debounce filter passes (`main.rs` 110-148):
`last` has been set to `now` and "Change detected" printed unless quiet;
then `child.take()` empties the slot, the kill branch or the non-blocking
poll branch runs, and finally the spawn block.  In the poll branch the
Rust code sets `exited = prev_child.try_wait().unwrap().is_none()` and
puts the child back when `!exited` — note `try_wait()` returns `Ok(None)`
for a child that is still RUNNING, so `exited` is true exactly when the
child is still running; the embedding reproduces this literally via
`st.isNone`.  The `unwrap` panics when the poll itself fails. -/
def effectiveStep (args : Args) (os : OsCycle) (now : Nat) (child0 : Option Nat) :
    CycleResult :=
  match child0 with
  | some prevChild =>
      if args.kill && args.reexec then
        spawnBlock args os now none (changeDetectedLog args ++ killBranchLog args os)
      else
        match os.tryWaitRes with
        | Except.error _ => CycleResult.panic (changeDetectedLog args)
        | Except.ok st =>
            spawnBlock args os now (if !st.isNone then some prevChild else none)
              (changeDetectedLog args)
  | none => spawnBlock args os now none (changeDetectedLog args)

/-- One iteration of the control loop after `rx.recv()` returns
(`main.rs` 107-149): compute `now`, apply the debounce filter
`now - last > interval`, and on success update `last` and reconcile. -/
def cycle (args : Args) (os : OsCycle) (now : Nat) (s : LoopState) : CycleResult :=
  if now - s.last > args.interval then
    effectiveStep args os now s.child
  else
    CycleResult.next s false false []

/-- The debounce filter iterated over the arrival times of successive
dequeued modify-signals (`main.rs` 106-110, restricted to the `last` /
`interval` bookkeeping): returns the times at which an effective trigger
fires. -/
def debounceTimes (interval : Nat) : Nat → List Nat → List Nat
  | _, [] => []
  | last, t :: ts =>
      if t - last > interval then t :: debounceTimes interval t ts
      else debounceTimes interval last ts

/-- Resolution of the watch-file list (`main.rs` 40-49).  The `--list`
argument, when present, is `File::open`ed with
`.expect("Failed to open file")` — a failed open panics — and then read
line by line with `reader.lines().filter_map(|line| line.ok())`, silently
dropping lines that fail to read.  The argument models the open result
(`Except.error ()` = open failed) and, on success, the per-line read
results.  The result is `Except.error ()` for the panic, otherwise the
resolved list. -/
def resolveFiles (listArg : Option (Except Unit (List (Except Unit String))))
    (filesArg : List String) : Except Unit (List String) :=
  match listArg with
  | some (Except.error e) => Except.error e
  | some (Except.ok lines) => Except.ok (lines.filterMap Except.toOption)
  | none => Except.ok filesArg

/-- Outcome of the startup phase before the watch loop:
* `panicked msg` — a Rust panic with message prefix `msg` on the error
  stream; the process terminates with exit code 101;
* `exited code msg` — `eprintln!(msg); std::process::exit(code)`;
* `running files` — startup proceeds to watch `files` (and only then can
  a child ever be spawned). -/
inductive SetupOutcome
  | panicked (msg : String)
  | exited (code : Nat) (msg : String)
  | running (files : List String)
deriving DecidableEq, Repr

/-- The exit code the OS observes for each startup outcome (a Rust panic
terminates the process with code 101). -/
def SetupOutcome.exitCode : SetupOutcome → Option Nat
  | SetupOutcome.panicked _ => some 101
  | SetupOutcome.exited c _ => some c
  | SetupOutcome.running _ => none

/-- The startup phase (`main.rs` 40-53): resolve the file list, then if it
is empty print "No files to watch" to the error stream and exit with
code 1; otherwise continue to watcher registration and the loop. -/
def setup (listArg : Option (Except Unit (List (Except Unit String))))
    (filesArg : List String) : SetupOutcome :=
  match resolveFiles listArg filesArg with
  | Except.error _ => SetupOutcome.panicked "Failed to open file"
  | Except.ok files =>
      if files.length = 0 then SetupOutcome.exited 1 "No files to watch"
      else SetupOutcome.running files

lemma except_toOption_eq_some {ε α : Type} (x : Except ε α) (a : α) :
    x.toOption = some a ↔ x = Except.ok a := by
  cases x <;> simp [Except.toOption]

lemma debounceTimes_nil_of_suppressed (interval last : Nat) (ts : List Nat)
    (h : ∀ t ∈ ts, ¬ t - last > interval) : debounceTimes interval last ts = [] := by
  induction ts with
  | nil => rfl
  | cons t ts ih =>
      have ht := h t (List.mem_cons_self t ts)
      simp only [debounceTimes, if_neg ht]
      exact ih fun u hu => h u (List.mem_cons_of_mem t hu)

end Watchdog

namespace Watchdog

/-- C1: with the kill-and-restart branch not taken (`kill=false`) and a
child in the slot, the claim says a still-running child is left in the
slot with no spawn, and an exited child's slot is cleared with a spawn
attempted.  The code does the opposite on both poll outcomes, because
`exited = try_wait().unwrap().is_none()` is true exactly when the child is
still running (`Ok(None)`): a still-running child (first conjunct, poll
`Except.ok none`) is dropped from the slot and a duplicate child `2` is
spawned next to it; an exited child (second conjunct, poll
`Except.ok (some 0)`) is put back into the slot dead and no spawn is
attempted.  Inputs: interval 1000 ms, `last = 0`, signal at `now = 2000`,
slot holds child `1`, a spawn would yield child `2`, quiet. -/
theorem c1_poll_inverted :
    cycle ⟨1000, true, false, true⟩ ⟨true, true, Except.ok none, some 2⟩ 2000 ⟨0, some 1⟩ =
      CycleResult.next ⟨2000, some 2⟩ true true [] ∧
    cycle ⟨1000, true, false, true⟩ ⟨true, true, Except.ok (some 0), some 2⟩ 2000 ⟨0, some 1⟩ =
      CycleResult.next ⟨2000, some 1⟩ true false [] ∧
    cycle ⟨1000, true, false, true⟩ ⟨true, true, Except.ok none, some 2⟩ 2000 ⟨0, some 1⟩ ≠
      CycleResult.next ⟨2000, some 1⟩ true false [] ∧
    cycle ⟨1000, true, false, true⟩ ⟨true, true, Except.ok (some 0), some 2⟩ 2000 ⟨0, some 1⟩ ≠
      CycleResult.next ⟨2000, some 2⟩ true true [] := by
  refine ⟨rfl, rfl, ?_, ?_⟩ <;> decide

/-- C2: with `reexec=true, kill=true` and a child in the slot, the claim
says a new spawn is attempted iff both `kill()` and `wait()` succeeded.
In the code the slot was already emptied by `child.take()` and the
kill-failure path never refills it, so `child.is_none()` holds and the
spawn block runs anyway: after a failed `kill()` (first conjunct) or a
failed `wait()` (second conjunct) the program prints
"Failed to kill child process, skipping re-execution" and then spawns
child `2` regardless.  Inputs: interval 1000 ms, `last = 0`, signal at
`now = 2000`, slot holds child `1`, quiet. -/
theorem c2_spawn_after_failed_kill :
    cycle ⟨1000, true, true, true⟩ ⟨false, true, Except.ok none, some 2⟩ 2000 ⟨0, some 1⟩ =
      CycleResult.next ⟨2000, some 2⟩ true true
        ["Failed to kill child", "Failed to kill child process, skipping re-execution"] ∧
    cycle ⟨1000, true, true, true⟩ ⟨true, false, Except.ok none, some 2⟩ 2000 ⟨0, some 1⟩ =
      CycleResult.next ⟨2000, some 2⟩ true true
        ["Failed to finalize child", "Failed to kill child process, skipping re-execution"] :=
  ⟨rfl, rfl⟩

/-- C5: the claim says `kill` is forced true whenever `reexec` is true, so
that with `reexec=true, kill=false` an effective Trigger still shows the
kill-before-restart behaviour.  The code's branch condition is
`args.kill && args.reexec` (`main.rs` 115) and nothing ever forces the
flag, so with `kill=false` the poll branch runs instead: on identical
inputs (slot holds child `1`, which has exited with status `0`, a spawn
would yield child `2`) the `kill=false` run keeps the dead child and
spawns nothing, while the `kill=true` run — the behaviour the claim
asserts for both — kills, waits and spawns child `2`; the two outcomes
differ. -/
theorem c5_kill_not_forced_by_reexec :
    cycle ⟨1000, true, false, true⟩ ⟨true, true, Except.ok (some 0), some 2⟩ 2000 ⟨0, some 1⟩ =
      CycleResult.next ⟨2000, some 1⟩ true false [] ∧
    cycle ⟨1000, true, true, true⟩ ⟨true, true, Except.ok (some 0), some 2⟩ 2000 ⟨0, some 1⟩ =
      CycleResult.next ⟨2000, some 2⟩ true true [] ∧
    cycle ⟨1000, true, false, true⟩ ⟨true, true, Except.ok (some 0), some 2⟩ 2000 ⟨0, some 1⟩ ≠
      cycle ⟨1000, true, true, true⟩ ⟨true, true, Except.ok (some 0), some 2⟩ 2000 ⟨0, some 1⟩ := by
  refine ⟨rfl, rfl, ?_⟩; decide

/-- C8: with an empty `--files` list and no `--list`, startup prints
"No files to watch" to the error stream and exits with code 1; the
outcome is never `running`, and only a `running` startup ever reaches the
code that spawns a child, so no child is spawned. -/
theorem c8_empty_files_exit :
    setup none [] = SetupOutcome.exited 1 "No files to watch" ∧
    (setup none []).exitCode = some 1 ∧
    ∀ files : List String, setup none [] ≠ SetupOutcome.running files := by
  refine ⟨rfl, rfl, ?_⟩
  intro files h
  exact SetupOutcome.noConfusion h

/-- C9 counterexample: the claim says a failure to open the `--list` file
makes the process exit with code 1.  The code reaches
`fs::File::open(list).expect("Failed to open file")`, and a failed open
therefore panics: the process terminates with the panic exit code 101,
not 1. -/
theorem c9_list_open_failure_not_exit1 :
    setup (some (Except.error ())) ["x"] = SetupOutcome.panicked "Failed to open file" ∧
    (setup (some (Except.error ())) ["x"]).exitCode = some 101 ∧
    (setup (some (Except.error ())) ["x"]).exitCode ≠ some 1 := by
  refine ⟨rfl, rfl, ?_⟩; decide

/-- C9 amended: if the `--list` file cannot be opened, the error is fatal
and reported on the error stream, but via an `expect` panic ("Failed to
open file"), so the process terminates with exit code 101 rather than
exit code 1; this holds whatever `--files` arguments were also given. -/
theorem c9_amended_list_open_panics (filesArg : List String) :
    setup (some (Except.error ())) filesArg = SetupOutcome.panicked "Failed to open file" ∧
    (setup (some (Except.error ())) filesArg).exitCode = some 101 :=
  ⟨rfl, rfl⟩

/-- C10: when a `--list` file is given and opens successfully, each line
that fails to read is silently skipped — the resolution never panics or
exits, and the resolved watch list is exactly the successfully read
lines: a string is watched iff some line read it successfully, an
all-successful list is kept whole and in order, and in general the
resolved list is no longer than the line list (strictly shorter when a
line failed). -/
theorem c10_failed_lines_skipped (lines : List (Except Unit String))
    (filesArg : List String) :
    ∃ files : List String,
      resolveFiles (some (Except.ok lines)) filesArg = Except.ok files ∧
      (∀ s : String, s ∈ files ↔ Except.ok s ∈ lines) ∧
      files.length ≤ lines.length ∧
      ∀ good : List String,
        resolveFiles (some (Except.ok (good.map Except.ok))) filesArg = Except.ok good := by
  refine ⟨lines.filterMap Except.toOption, rfl, ?_, ?_, ?_⟩
  · intro s
    simp only [List.mem_filterMap]
    constructor
    · rintro ⟨x, hx, hsome⟩
      rw [except_toOption_eq_some] at hsome
      exact hsome ▸ hx
    · intro hmem
      exact ⟨Except.ok s, hmem, rfl⟩
  · exact List.length_filterMap_le _ _
  · intro good
    simp only [resolveFiles, List.filterMap_map]
    congr 1
    induction good with
    | nil => rfl
    | cons g gs ih => simp [Except.toOption, ih]

/-- C3: for every dequeued raw modify-signal, (i) whenever the iteration
acts on the signal (produces an effective result, `effective = true`) the
guard `now - last > interval` held and the new state's `last` is `now`,
and (ii) a suppressed signal (guard false) leaves the whole state
unchanged, attempts no spawn and prints nothing. -/
theorem c3_debounce_guard (args : Args) (os : OsCycle) (now : Nat) (s : LoopState) :
    (∀ s1 att log, cycle args os now s = CycleResult.next s1 true att log →
        now - s.last > args.interval ∧ s1.last = now) ∧
    (∀ log, cycle args os now s = CycleResult.panic log →
        now - s.last > args.interval) ∧
    (¬ now - s.last > args.interval →
        cycle args os now s = CycleResult.next s false false []) := by
  refine ⟨?_, ?_, ?_⟩
  · intro s1 att log h
    unfold cycle at h
    split at h
    case isTrue hg =>
      refine ⟨hg, ?_⟩
      unfold effectiveStep spawnBlock at h
      repeat' split at h
      all_goals first
        | (cases h; rfl)
        | exact CycleResult.noConfusion h
    case isFalse hg =>
      injection h with h1 h2 h3 h4
      simp at h2
  · intro log h
    unfold cycle at h
    split at h
    case isTrue hg => exact hg
    case isFalse hg => exact CycleResult.noConfusion h
  · intro hg
    unfold cycle
    exact if_neg hg

/-- C3 witness: a concrete suppressed signal — interval 1000 ms,
`last = 0`, signal at `now = 500` — changes no state. -/
theorem c3_debounce_guard_witness :
    cycle ⟨1000, false, false, false⟩ ⟨true, true, Except.ok none, none⟩ 500 ⟨0, none⟩ =
      CycleResult.next ⟨0, none⟩ false false [] :=
  (c3_debounce_guard ⟨1000, false, false, false⟩ ⟨true, true, Except.ok none, none⟩
    500 ⟨0, none⟩).2.2 (by decide)

/-- C4 counterexample: the claim promises exactly one effective Trigger
for any burst inside one debounce interval and two Triggers for two
events more than one interval apart, but both counts depend on the first
event passing the filter against `last` (initialised to process start,
`main.rs` 87).  With interval 1000 ms and `last = 0`: events at 100 ms and
200 ms (strictly within one interval) produce zero Triggers, not one; and
events at 500 ms and 1600 ms (1100 ms > interval apart) produce one
Trigger, not two. -/
theorem c4_burst_counts_fail :
    debounceTimes 1000 0 [100, 200] = [] ∧
    (debounceTimes 1000 0 [100, 200]).length ≠ 1 ∧
    debounceTimes 1000 0 [500, 1600] = [1600] ∧
    (debounceTimes 1000 0 [500, 1600]).length ≠ 2 := by
  refine ⟨rfl, ?_, rfl, ?_⟩ <;> decide

/-- C4 amended: provided the first raw modify-event itself passes the
debounce filter (`t0 - last > interval`), a burst whose remaining events
lie strictly within one interval of the first produces exactly one
effective Trigger, and a second event more than one interval after the
first produces a second Trigger (two in total). -/
theorem c4_amended_debounce_counts (interval last t0 : Nat) (ts : List Nat)
    (h0 : t0 - last > interval) :
    ((∀ t ∈ ts, t < t0 + interval) → debounceTimes interval last (t0 :: ts) = [t0]) ∧
    (∀ t1, t1 - t0 > interval → debounceTimes interval last [t0, t1] = [t0, t1]) := by
  constructor
  · intro h
    simp only [debounceTimes, if_pos h0]
    rw [debounceTimes_nil_of_suppressed interval t0 ts fun t ht => by
      have := h t ht; omega]
  · intro t1 h1
    simp [debounceTimes, if_pos h0, if_pos h1]

/-- C4 witness: interval 1000 ms, `last = 0`; an effective first event at
1001 ms followed by one at 1500 ms (within the interval) yields exactly
the one Trigger at 1001 ms. -/
theorem c4_amended_debounce_counts_witness :
    debounceTimes 1000 0 [1001, 1500] = [1001] :=
  (c4_amended_debounce_counts 1000 0 1001 [1500] (by decide)).1 (by decide)

/-- C6 counterexample: the claim says every process-control failure,
including the non-blocking wait poll, is non-fatal.  But the poll result
is unwrapped (`prev_child.try_wait().unwrap()`, `main.rs` 132), so a
failing poll panics and the program terminates: with `kill=false`, a
child in the slot and a failing `try_wait`, the iteration ends in the
panic outcome instead of reaching the next loop iteration. -/
theorem c6_trywait_failure_panics :
    cycle ⟨1000, true, false, true⟩ ⟨true, true, Except.error (), some 2⟩ 2000 ⟨0, some 1⟩ =
      CycleResult.panic [] := rfl

/-- C6 amended: spawn failures, kill failures and (blocking) wait failures
are all non-fatal — for any outcome of those calls, as long as the
non-blocking `try_wait` poll itself does not fail, the iteration never
panics and the loop reaches its next iteration; only a failing `try_wait`
poll terminates the program. -/
theorem c6_amended_nonfatal (args : Args) (os : OsCycle) (now : Nat) (s : LoopState)
    (h : ∃ st, os.tryWaitRes = Except.ok st) :
    ∀ log, cycle args os now s ≠ CycleResult.panic log := by
  intro log hc
  obtain ⟨st, hst⟩ := h
  unfold cycle at hc
  split at hc
  case isTrue hg =>
    unfold effectiveStep spawnBlock at hc
    repeat' split at hc
    all_goals first
      | exact CycleResult.noConfusion hc
      | (rename_i heq; rw [hst] at heq; exact Except.noConfusion heq)
  case isFalse hg => exact CycleResult.noConfusion hc

/-- C6 witness: with a kill failure, a wait failure and a spawn failure
all at once, but a successful poll, the iteration still does not panic. -/
theorem c6_amended_nonfatal_witness :
    cycle ⟨1000, true, true, true⟩ ⟨false, false, Except.ok none, none⟩ 2000 ⟨0, some 1⟩ ≠
      CycleResult.panic [] :=
  c6_amended_nonfatal ⟨1000, true, true, true⟩ ⟨false, false, Except.ok none, none⟩
    2000 ⟨0, some 1⟩ ⟨none, rfl⟩ []

/-- C7: an event whose kind is not `modify` sends nothing on the trigger
channel — its callback arm does nothing — and consequently no effective
Trigger can ever arise from it: deleting every such event from a
delivered sequence leaves the enqueued signal stream (the loop's entire
input) unchanged, regardless of timing. -/
theorem c7_nonmodify_no_signal (k : EventKind) (h : k ≠ EventKind.modify) :
    watcherSignal k = none ∧
    ∀ evs : List EventKind,
      enqueuedSignals (evs.filter fun e => e != k) = enqueuedSignals evs := by
  have hk : watcherSignal k = none := by
    cases k with
    | modify => exact absurd rfl h
    | any => rfl
    | access => rfl
    | create => rfl
    | remove => rfl
    | other => rfl
  refine ⟨hk, ?_⟩
  intro evs
  induction evs with
  | nil => rfl
  | cons e tl ih =>
      simp only [enqueuedSignals] at ih ⊢
      by_cases he : e = k
      · subst he
        simp [List.filter_cons, List.filterMap_cons, hk, ih]
      · have hne : (e != k) = true := bne_iff_ne.mpr he
        simp [List.filter_cons, List.filterMap_cons, hne, ih]

/-- C7 witness: a `create` event sends no signal, and removing all
`create` events from a concrete mixed sequence changes nothing. -/
theorem c7_nonmodify_no_signal_witness :
    watcherSignal EventKind.create = none ∧
    enqueuedSignals
        ([EventKind.create, EventKind.modify, EventKind.create].filter
          fun e => e != EventKind.create) =
      enqueuedSignals [EventKind.create, EventKind.modify, EventKind.create] :=
  ⟨(c7_nonmodify_no_signal EventKind.create (by decide)).1,
    (c7_nonmodify_no_signal EventKind.create (by decide)).2
      [EventKind.create, EventKind.modify, EventKind.create]⟩

end Watchdog
